import Mathlib

/-!
Verification of `kmp_socket_if.c` (nanostack KMP socket interface adapter).

The C module keeps a global intrusive list of bindings
(`kmp_socket_if_list`), a global `uint8_t` instance-id counter
(`kmp_socket_if_instance_id`, initialised to 1), and four operations:
`kmp_socket_if_register`, `kmp_socket_if_unregister`, `kmp_socket_if_send`
and `kmp_socket_if_socket_cb`.

Shallow embedding: the global state is an explicit `SifState` threaded
through the operations; external collaborators (`ns_dyn_mem_alloc`,
`socket_open`, `kmp_service_msg_if_register`, `socket_sendto`,
`socket_recvfrom`) are oracles supplied through environment records; calls
out of the module (socket close/open, service registration, transmission,
buffer alloc/free, message forwarding) are recorded in an event trace.
Pointers that the C checks for NULL are modelled as `Option` (or `Nat`
with 0 as the null service handle).  Heap identity of a binding is
modelled by a token `tok`; `ns_dyn_mem_free` on a binding records the
token in `freed` — the C code does *not* unlink the node, and neither does
the model, so a freed-but-listed entry is representable.
-/

/-- `ADDRESS_IPV6` of `ns_address.h` (value irrelevant to the claims). -/
def ADDRESS_IPV6 : Nat := 1

/-- `SOCKET_DATA` event type of `socket_api.h`. -/
def SOCKET_DATA : Nat := 0

/-- `SOCKET_IF_HEADER_SIZE` — the 27-byte relay header constant. -/
def SOCKET_IF_HEADER_SIZE : Nat := 27

/-- `KMP_TYPE_NONE` of `kmp_api.h` — the "unknown / none" sentinel, value 0. -/
def KMP_TYPE_NONE : Nat := 0

/-- `KMP_ADDR_EUI_64_AND_IP` of `kmp_addr.h` (value irrelevant to the claims). -/
def KMP_ADDR_EUI_64_AND_IP : Nat := 1

/-- `ns_address_t`: address type, 16 address bytes, and the `identifier`
(port) field.  The C field `type` is renamed `addr_type` (Lean keyword). -/
structure NsAddress where
  addr_type : Nat
  address : List Nat
  identifier : Nat
  deriving DecidableEq, Repr

/-- `kmp_addr_t` of `kmp_addr.h`: address kind tag, 8-byte EUI-64
(peer hardware identifier), port, and 16-byte relay address. -/
structure KmpAddr where
  addr_type : Nat
  eui_64 : List Nat
  port : Nat
  relay_address : List Nat
  deriving DecidableEq, Repr

/-- The all-zero `kmp_addr_t` produced by `memset(&addr, 0, ...)`. -/
def KmpAddr.zero : KmpAddr :=
  { addr_type := 0, eui_64 := List.replicate 8 0, port := 0,
    relay_address := List.replicate 16 0 }

/-- `kmp_socket_if_t`: one registry binding.  `tok` is the heap identity
of the allocation (not a C field); the C fields keep their names, with
`socket_id` an `int8_t` modelled as `Int`. -/
structure KmpSocketIfEntry where
  tok : Nat
  kmp_service : Nat
  instance_id : Nat
  relay : Bool
  remote_addr : NsAddress
  socket_id : Int
  socket_id_set : Bool
  deriving DecidableEq, Repr

/-- The module's global mutable state: the binding list
`kmp_socket_if_list`, the `uint8_t` counter `kmp_socket_if_instance_id`,
a fresh-token supply for heap identities, and the tokens already passed
to `ns_dyn_mem_free`. -/
structure SifState where
  sif_list : List KmpSocketIfEntry
  next_instance_id : Nat
  next_tok : Nat
  freed : List Nat
  deriving DecidableEq, Repr

/-- The initial state: empty list, counter statically initialised to 1. -/
def SifState.init : SifState :=
  { sif_list := [], next_instance_id := 1, next_tok := 0, freed := [] }

/-- Calls out of the module, recorded in order. -/
inductive Event where
  | closeSock (sid : Int)
  | openSock (local_port : Nat) (result : Int)
  | msgIfRegister (service : Nat) (instance_id : Nat) (has_send : Bool)
      (header_size : Nat)
  | sendto (sid : Int) (dst : NsAddress) (buf : List Nat) (size : Nat)
  | allocBuf (len : Nat)
  | freeBuf
  | forward (service : Nat) (instance_id : Nat) (mtype : Nat)
      (addr : KmpAddr) (data_offset : Nat) (len : Nat)
  deriving DecidableEq, Repr

/-- `Modelled from the spec: common_write_16_bit` (helper library, not under
`src/`) — writes a 16-bit value big-endian, high byte first ("2 bytes port
(big-endian)" per the spec's wire table). -/
def common_write_16_bit (value : Nat) : List Nat :=
  [value / 256 % 256, value % 256]

/-- `Modelled from the spec: common_read_16_bit` (helper library, not under
`src/`) — reads a 16-bit big-endian value. -/
def common_read_16_bit (hi lo : Nat) : Nat :=
  hi % 256 * 256 + lo % 256

/-- `Modelled from the spec: kmp_address_eui_64_get` (kmp_addr.c, not under
`src/`) — yields the 8-byte peer hardware identifier of the address. -/
def kmp_address_eui_64_get (addr : KmpAddr) : List Nat :=
  addr.eui_64

/-- `Modelled from the spec: kmp_api_type_from_id_get` (kmp_api.c, not
under `src/`) — maps the tag byte through a type lookup that returns the
tag itself for a registered tag and `KMP_TYPE_NONE` for unrecognized
values.  The registered-tag set is a parameter. -/
def kmp_api_type_from_id_get (tags : List Nat) (id : Nat) : Nat :=
  if id ≠ KMP_TYPE_NONE ∧ id ∈ tags then id else KMP_TYPE_NONE

/-- The lookup loop of `kmp_socket_if_register` (`ns_list_foreach` with no
break): the LAST entry matching (service, instance_id) wins. -/
def findRegisterEntry (l : List KmpSocketIfEntry) (service iid : Nat) :
    Option KmpSocketIfEntry :=
  l.foldl
    (fun acc e =>
      if e.kmp_service = service ∧ e.instance_id = iid then some e else acc)
    none

/-- The lookup loops of `kmp_socket_if_send` / `kmp_socket_if_socket_cb`
(`ns_list_foreach` with break): the FIRST match wins. -/
def findSendEntry (l : List KmpSocketIfEntry) (service iid : Nat) :
    Option KmpSocketIfEntry :=
  l.find? (fun e => e.kmp_service = service ∧ e.instance_id = iid)

/-- In-place mutation of a listed node: replace the entry with the same
heap identity. -/
def writeBack (l : List KmpSocketIfEntry) (b : KmpSocketIfEntry) :
    List KmpSocketIfEntry :=
  l.map (fun e => if e.tok = b.tok then b else e)

/-- Oracle results for one `kmp_socket_if_register` call:
does `ns_dyn_mem_alloc` succeed, what `socket_open` returns, what
`kmp_service_msg_if_register` returns. -/
structure RegisterEnv where
  alloc_ok : Bool
  open_result : Int
  msg_if_result : Int
  deriving DecidableEq, Repr

/-- Result of one `kmp_socket_if_register` call: the `int8_t` return, the
written-back `*instance_id`, the new global state, and the event trace. -/
structure RegisterResult where
  ret : Int
  iid_out : Nat
  state : SifState
  events : List Event
  deriving DecidableEq, Repr

/-- `kmp_socket_if_register` translated line by line from the C.
`service` is the service pointer (0 = NULL); `remote_addr` is the 16-byte
address pointer (`none` = NULL); `iid` is `*instance_id` on entry.
On an error exit, mutations already applied to a pre-existing listed node
stay visible in the list, and `ns_dyn_mem_free` only records the token —
exactly as in the C, which never unlinks the node it frees. -/
def kmp_socket_if_register (st : SifState) (env : RegisterEnv)
    (service : Nat) (iid : Nat) (relay : Bool) (local_port : Nat)
    (remote_addr : Option (List Nat)) (remote_port : Nat) : RegisterResult :=
  match remote_addr with
  | none => { ret := -1, iid_out := iid, state := st, events := [] }
  | some raddr =>
    if service = 0 then { ret := -1, iid_out := iid, state := st, events := [] }
    else
      -- lookup; on miss allocate a zeroed node with socket_id = -1
      let found := findRegisterEntry st.sif_list service iid
      let new_socket_if_allocated := found.isNone
      if found.isNone ∧ ¬ env.alloc_ok then
        { ret := -1, iid_out := iid, state := st, events := [] }
      else
        let b0 : KmpSocketIfEntry :=
          match found with
          | some e => e
          | none =>
            { tok := st.next_tok, kmp_service := 0, instance_id := 0,
              relay := false,
              remote_addr :=
                { addr_type := 0, address := List.replicate 16 0,
                  identifier := 0 },
              socket_id := -1, socket_id_set := false }
        let next_tok1 := if new_socket_if_allocated then st.next_tok + 1
          else st.next_tok
        let b1 := { b0 with kmp_service := service }
        -- instance id allocation (uint8 post-increment, skip 0 on the node)
        let assigned0 := st.next_instance_id % 256
        let counter1 := if iid = 0 then (st.next_instance_id + 1) % 256
          else st.next_instance_id
        let b2 := if iid = 0 then
            { b1 with instance_id :=
                if assigned0 = 0 then (assigned0 + 1) % 256 else assigned0 }
          else b1
        let iid1 := if iid = 0 then b2.instance_id else iid
        let b3 := { b2 with relay := relay }
        let b4 := { b3 with remote_addr :=
            { b3.remote_addr with addr_type := ADDRESS_IPV6 } }
        let ra := raddr.take 16
        let address_changed :=
          b4.remote_addr.address ≠ ra ∨ b4.remote_addr.identifier ≠ remote_port
        let b5 := { b4 with remote_addr :=
            { b4.remote_addr with address := ra, identifier := remote_port } }
        -- socket lifecycle: (re)open when no socket yet or endpoint changed
        if b5.socket_id < 0 ∨ address_changed then
          let closeEvs := if b5.socket_id ≥ 0 then [Event.closeSock b5.socket_id]
            else []
          let evs1 := closeEvs ++ [Event.openSock local_port env.open_result]
          let b6 := { b5 with socket_id := env.open_result }
          if env.open_result < 0 then
            -- ns_dyn_mem_free(socket_if); return -1  (node NOT unlinked)
            { ret := -1, iid_out := iid1,
              state :=
                { sif_list :=
                    if new_socket_if_allocated then st.sif_list
                    else writeBack st.sif_list b6,
                  next_instance_id := counter1, next_tok := next_tok1,
                  freed := st.freed ++ [b6.tok] },
              events := evs1 }
          else
            let header_size := if relay then SOCKET_IF_HEADER_SIZE else 0
            let evs2 := evs1 ++ [Event.msgIfRegister service iid1 true header_size]
            if env.msg_if_result < 0 then
              { ret := -1, iid_out := iid1,
                state :=
                  { sif_list :=
                      if new_socket_if_allocated then st.sif_list
                      else writeBack st.sif_list b6,
                    next_instance_id := counter1, next_tok := next_tok1,
                    freed := st.freed ++ [b6.tok] },
                events := evs2 }
            else
              { ret := 0, iid_out := iid1,
                state :=
                  { sif_list :=
                      if new_socket_if_allocated then st.sif_list ++ [b6]
                      else writeBack st.sif_list b6,
                    next_instance_id := counter1, next_tok := next_tok1,
                    freed := st.freed },
                events := evs2 }
        else
          let header_size := if relay then SOCKET_IF_HEADER_SIZE else 0
          let evs2 := [Event.msgIfRegister service iid1 true header_size]
          if env.msg_if_result < 0 then
            { ret := -1, iid_out := iid1,
              state :=
                { sif_list :=
                    if new_socket_if_allocated then st.sif_list
                    else writeBack st.sif_list b5,
                  next_instance_id := counter1, next_tok := next_tok1,
                  freed := st.freed ++ [b5.tok] },
              events := evs2 }
          else
            { ret := 0, iid_out := iid1,
              state :=
                { sif_list :=
                    if new_socket_if_allocated then st.sif_list ++ [b5]
                    else writeBack st.sif_list b5,
                  next_instance_id := counter1, next_tok := next_tok1,
                  freed := st.freed },
              events := evs2 }

/-- `kmp_socket_if_unregister`: removes every binding of `service`,
closing its socket, deregistering the message interface, and freeing the
node.  Returns the `int8_t` result, the new state, and the event trace. -/
def kmp_socket_if_unregister (st : SifState) (service : Nat) :
    Int × SifState × List Event :=
  if service = 0 then (-1, st, [])
  else
    let victims := st.sif_list.filter (fun e => e.kmp_service = service)
    let keep := st.sif_list.filter (fun e => ¬ e.kmp_service = service)
    let evs := victims.flatMap (fun e =>
      [Event.closeSock e.socket_id,
       Event.msgIfRegister service e.instance_id false 0])
    (0,
     { st with
         sif_list := keep,
         freed := st.freed ++ victims.map (fun e => e.tok) },
     evs)

/-- Oracle for one `kmp_socket_if_send` call: what `socket_sendto`
returns (the C discards it). -/
structure SendEnv where
  sendto_result : Int
  deriving DecidableEq, Repr

/-- Result of one `kmp_socket_if_send` call: `int8_t` return and the
event trace (transmission, buffer release). -/
structure SendResult where
  ret : Int
  events : List Event
  deriving DecidableEq, Repr

/-- `kmp_socket_if_send` translated from the C.  `pdu` is the payload
buffer pointer (`none` = NULL) whose contents are the byte list; `addr` is
the `kmp_addr_t` pointer.  In relay mode the first 27 bytes of the buffer
are overwritten in place with the relay header before transmission.
Note the C frees `pdu` only after a binding is found; the NULL-argument
and binding-not-found exits perform no free. -/
def kmp_socket_if_send (st : SifState) (env : SendEnv) (service : Nat)
    (instance_id : Nat) (kmp_id : Nat) (addr : Option KmpAddr)
    (pdu : Option (List Nat)) (size : Nat) (tx_identifier : Nat) :
    SendResult :=
  let _ := tx_identifier
  match addr, pdu with
  | some a, some buf =>
    if service = 0 then { ret := -1, events := [] }
    else
      match findSendEntry st.sif_list service instance_id with
      | none => { ret := -1, events := [] }
      | some socket_if =>
        let wire :=
          if socket_if.relay then
            a.relay_address.take 16 ++ common_write_16_bit a.port ++
              (kmp_address_eui_64_get a).take 8 ++ [kmp_id % 256] ++
              buf.drop SOCKET_IF_HEADER_SIZE
          else buf
        let _ := env.sendto_result
        { ret := 0,
          events :=
            [Event.sendto socket_if.socket_id socket_if.remote_addr wire size,
             Event.freeBuf] }
  | _, _ => { ret := -1, events := [] }

/-- `socket_callback_t`: event type, socket id, and the reported datagram
length `d_len` (a `uint16_t`). -/
structure SocketCallback where
  event_type : Nat
  socket_id : Int
  d_len : Nat
  deriving DecidableEq, Repr

/-- `kmp_socket_if_socket_cb` translated from the C.  `tags` parametrises
the modelled type lookup; `buf` gives the contents of the scratch buffer
after `socket_recvfrom` (the byte at each index — indices at or beyond the
datagram length model uninitialised/out-of-bounds memory, which the C
reads without a minimum-length check); `recv_result` is what
`socket_recvfrom` returns.  The callback mutates no registry state; its
observable behaviour is the event trace. -/
def kmp_socket_if_socket_cb (st : SifState) (tags : List Nat)
    (buf : Nat → Nat) (recv_result : Int) (cb : SocketCallback) :
    List Event :=
  if cb.event_type ≠ SOCKET_DATA then []
  else
    match st.sif_list.find? (fun e => e.socket_id = cb.socket_id) with
    | none => []
    | some socket_if =>
      let alloc := Event.allocBuf cb.d_len
      if recv_result ≠ (cb.d_len : Int) then [alloc, Event.freeBuf]
      else
        if socket_if.relay then
          let addr : KmpAddr :=
            { addr_type := KMP_ADDR_EUI_64_AND_IP,
              relay_address := (List.range 16).map buf,
              port := common_read_16_bit (buf 16) (buf 17),
              eui_64 := (List.range 8).map (fun i => buf (18 + i)) }
          let mtype := kmp_api_type_from_id_get tags (buf 26 % 256)
          if mtype = KMP_TYPE_NONE then [alloc, Event.freeBuf]
          else
            let len1 := (cb.d_len + 65536 - SOCKET_IF_HEADER_SIZE) % 65536
            [alloc,
             Event.forward socket_if.kmp_service socket_if.instance_id mtype
               addr SOCKET_IF_HEADER_SIZE len1,
             Event.freeBuf]
        else
          [alloc,
           Event.forward socket_if.kmp_service socket_if.instance_id
             KMP_TYPE_NONE KmpAddr.zero 0 cb.d_len,
           Event.freeBuf]

/-- Is an event the `ns_dyn_mem_temporary_alloc` of the scratch buffer? -/
def Event.isAlloc : Event → Bool
  | Event.allocBuf _ => true
  | _ => false

/-- A register-call oracle in which every external collaborator succeeds
(`socket_open` returns handle 3). -/
def envRegOK : RegisterEnv :=
  { alloc_ok := true, open_result := 3, msg_if_result := 0 }

/-- A fixed 16-byte remote address used by the registration sequences. -/
def regAddr0 : List Nat := List.replicate 16 0

/-- `n` successive `kmp_socket_if_register` calls by service 1, each
requesting instance id 0 (allocator), from the initial state, with all
collaborators succeeding; returns the final state and the ids written
back, in call order. -/
def registerN : Nat → SifState × List Nat
  | 0 => (SifState.init, [])
  | n + 1 =>
    let p := registerN n
    let r := kmp_socket_if_register p.1 envRegOK 1 0 false 10 (some regAddr0) 20
    (r.state, p.2 ++ [r.iid_out])

/-- One allocating registration by service 1 from the initial state
(writes back instance id 1), followed by `n` re-registrations of the same
(service, id) pair, the `k`-th using remote endpoint `(ep k, pp k)`; all
collaborators succeed. -/
def reRegisterN (ep : Nat → List Nat) (pp : Nat → Nat) : Nat → SifState
  | 0 => (kmp_socket_if_register SifState.init envRegOK 1 0 false 10
      (some (ep 0)) (pp 0)).state
  | n + 1 => (kmp_socket_if_register (reRegisterN ep pp n) envRegOK 1 1 false 10
      (some (ep (n + 1))) (pp (n + 1))).state

/-- A concrete registered binding (service 1, instance 1, socket 3), as
left behind by a successful first registration. -/
def entryW : KmpSocketIfEntry where
  tok := 0
  kmp_service := 1
  instance_id := 1
  relay := false
  remote_addr := { addr_type := 1, address := regAddr0, identifier := 20 }
  socket_id := 3
  socket_id_set := false

/-- A concrete one-binding registry state holding `entryW`. -/
def stW : SifState where
  sif_list := [entryW]
  next_instance_id := 2
  next_tok := 1
  freed := []

/-- A concrete registered RELAY binding (service 1, instance 1, socket 3). -/
def entryRW : KmpSocketIfEntry where
  tok := 0
  kmp_service := 1
  instance_id := 1
  relay := true
  remote_addr := { addr_type := 1, address := regAddr0, identifier := 20 }
  socket_id := 3
  socket_id_set := false

/-- A concrete one-binding registry state holding the relay binding
`entryRW`. -/
def stRW : SifState where
  sif_list := [entryRW]
  next_instance_id := 2
  next_tok := 1
  freed := []

/-!
## Theorems
-/

/-- C9: for every call to the send path with non-null service, pdu and
address for which a binding with the given (service, instance_id) exists,
the call returns success (0) for every possible `socket_sendto` result —
the transmit result is discarded and a transmit failure is never surfaced
to the caller. -/
theorem C9_send_discards_transmit_result (st : SifState) (env : SendEnv)
    (service instance_id kmp_id size tx : Nat) (a : KmpAddr) (buf : List Nat)
    (b : KmpSocketIfEntry) (hs : service ≠ 0)
    (hfind : findSendEntry st.sif_list service instance_id = some b) :
    (kmp_socket_if_send st env service instance_id kmp_id (some a) (some buf)
      size tx).ret = 0 := by
  simp [kmp_socket_if_send, hs, hfind]

theorem C9_send_discards_transmit_result_witness :
    (kmp_socket_if_send stW { sendto_result := -1 } 1 1 5 (some KmpAddr.zero)
      (some [1, 2, 3]) 3 0).ret = 0 :=
  C9_send_discards_transmit_result stW { sendto_result := -1 } 1 1 5 3 0
    KmpAddr.zero [1, 2, 3] entryW (by decide) (by decide)

/-- C7 counterexample: a send call with valid non-null arguments whose
binding lookup fails (empty registry) exits with -1 and performs zero
buffer releases — refuting "on every exit path ... the buffer is released
exactly once" for the binding-not-found exit of the send path. -/
theorem C7_counterexample :
    (kmp_socket_if_send SifState.init { sendto_result := 0 } 1 1 5
      (some KmpAddr.zero) (some [1, 2, 3]) 3 0).ret = -1 ∧
    (kmp_socket_if_send SifState.init { sendto_result := 0 } 1 1 5
      (some KmpAddr.zero) (some [1, 2, 3]) 3 0).events.count Event.freeBuf
      = 0 := by
  decide

/-- C7 (amended): the send path releases the payload buffer exactly once
whenever its argument checks pass and a binding is found (for every
transmit result), and performs no release on the invalid-argument and
binding-not-found exits (ownership stays with the caller); the receive
path releases its scratch buffer exactly once on every exit path on which
it was allocated (short-read drop, unknown-type drop, forward success)
and never double-frees: releases equal allocations, and both are at most
one. -/
theorem C7_buffer_release_discipline (st st2 : SifState) (env : SendEnv)
    (service instance_id kmp_id size tx : Nat) (a : KmpAddr) (buf : List Nat)
    (tags : List Nat) (mem : Nat → Nat) (recv : Int) (cb : SocketCallback) :
    ((kmp_socket_if_send st env service instance_id kmp_id (some a) (some buf)
        size tx).events.count Event.freeBuf =
      if service = 0 then 0
      else
        match findSendEntry st.sif_list service instance_id with
        | some _ => 1
        | none => 0)
    ∧ (kmp_socket_if_send st env service instance_id kmp_id (some a) none size
        tx).events = []
    ∧ ((kmp_socket_if_socket_cb st2 tags mem recv cb).count Event.freeBuf =
        (kmp_socket_if_socket_cb st2 tags mem recv cb).countP
          (fun e => Event.isAlloc e))
    ∧ (kmp_socket_if_socket_cb st2 tags mem recv cb).countP
        (fun e => Event.isAlloc e) ≤ 1 := by
  refine ⟨?_, ?_, ?_, ?_⟩
  · by_cases hs : service = 0
    · simp [kmp_socket_if_send, hs]
    · cases hf : findSendEntry st.sif_list service instance_id with
      | none => simp [kmp_socket_if_send, hs, hf]
      | some b => simp [kmp_socket_if_send, hs, hf, List.count_cons]
  · simp [kmp_socket_if_send]
  · unfold kmp_socket_if_socket_cb
    split
    · simp
    · split
      · simp
      · split
        · simp [List.count_cons, List.countP_cons, Event.isAlloc]
        · split
          · dsimp only
            split
            · simp [List.count_cons, List.countP_cons, Event.isAlloc]
            · simp [List.count_cons, List.countP_cons, Event.isAlloc]
          · simp [List.count_cons, List.countP_cons, Event.isAlloc]
  · unfold kmp_socket_if_socket_cb
    split
    · simp
    · split
      · simp
      · split
        · simp [List.countP_cons, Event.isAlloc]
        · split
          · dsimp only
            split
            · simp [List.countP_cons, Event.isAlloc]
            · simp [List.countP_cons, Event.isAlloc]
          · simp [List.countP_cons, Event.isAlloc]

/-- C8: after `unregister(service)` completes, a receive event referencing
a socket handle that belonged to one of that service's former bindings
(and to no other service's binding) is a no-op: the lookup by socket
handle finds no binding, nothing is forwarded, nothing is allocated, and
no error can occur (the callback returns an empty trace). -/
theorem C8_unregister_then_receive_noop (st : SifState) (service : Nat)
    (h : Int) (tags : List Nat) (mem : Nat → Nat) (recv : Int)
    (cb : SocketCallback)
    (hs : service ≠ 0)
    (_hformer : ∃ e ∈ st.sif_list, e.kmp_service = service ∧ e.socket_id = h)
    (honly : ∀ e ∈ st.sif_list, e.socket_id = h → e.kmp_service = service)
    (hcb : cb.socket_id = h) :
    kmp_socket_if_socket_cb (kmp_socket_if_unregister st service).2.1 tags mem
      recv cb = [] := by
  have hlist : (kmp_socket_if_unregister st service).2.1.sif_list =
      st.sif_list.filter (fun e => ¬ e.kmp_service = service) := by
    simp [kmp_socket_if_unregister, hs]
  have hnone : (kmp_socket_if_unregister st service).2.1.sif_list.find?
      (fun e => e.socket_id = cb.socket_id) = none := by
    rw [hlist]
    apply List.find?_eq_none.mpr
    intro e he
    rw [List.mem_filter] at he
    have h1 := he.1
    have h2 := he.2
    simp only [decide_eq_true_eq]
    intro hsid
    rw [hcb] at hsid
    have h3 : ¬ e.kmp_service = service := by simpa using h2
    exact h3 (honly e h1 hsid)
  unfold kmp_socket_if_socket_cb
  split
  · rfl
  · rw [hnone]

theorem C8_unregister_then_receive_noop_witness :
    kmp_socket_if_socket_cb (kmp_socket_if_unregister stW 1).2.1 [5]
      (fun i => i) 10 { event_type := SOCKET_DATA, socket_id := 3, d_len := 10 }
      = [] :=
  C8_unregister_then_receive_noop stW 1 3 [5] (fun i => i) 10
    { event_type := SOCKET_DATA, socket_id := 3, d_len := 10 }
    (by decide) (by decide) (by decide) (by decide)

/-- C10: in relay mode the receive path performs no minimum-length check
before parsing the 27-byte header: whenever the datagram is forwarded, the
forwarded length is the reported length minus 27 computed modulo 2^16
(16-bit wraparound), so for every reported length below 27 the forwarded
length wraps to a value greater than 65508. -/
theorem C10_relay_receive_length_wraps (st : SifState) (tags : List Nat)
    (mem : Nat → Nat) (cb : SocketCallback) (b : KmpSocketIfEntry)
    (hev : cb.event_type = SOCKET_DATA)
    (hfind : st.sif_list.find? (fun e => e.socket_id = cb.socket_id) = some b)
    (hrelay : b.relay = true)
    (htag : kmp_api_type_from_id_get tags (mem 26 % 256) ≠ KMP_TYPE_NONE) :
    (kmp_socket_if_socket_cb st tags mem (cb.d_len : Int) cb =
      [Event.allocBuf cb.d_len,
       Event.forward b.kmp_service b.instance_id
         (kmp_api_type_from_id_get tags (mem 26 % 256))
         { addr_type := KMP_ADDR_EUI_64_AND_IP,
           eui_64 := (List.range 8).map (fun i => mem (18 + i)),
           port := common_read_16_bit (mem 16) (mem 17),
           relay_address := (List.range 16).map mem }
         SOCKET_IF_HEADER_SIZE
         ((cb.d_len + 65536 - SOCKET_IF_HEADER_SIZE) % 65536),
       Event.freeBuf])
    ∧ (cb.d_len < 27 →
        (cb.d_len + 65536 - SOCKET_IF_HEADER_SIZE) % 65536 > 65508) := by
  constructor
  · simp [kmp_socket_if_socket_cb, hev, hfind, hrelay, htag]
  · intro hlt
    have : (cb.d_len + 65536 - SOCKET_IF_HEADER_SIZE) % 65536
        = cb.d_len + 65509 := by
      unfold SOCKET_IF_HEADER_SIZE
      omega
    omega

theorem C10_relay_receive_length_wraps_witness :
    (kmp_socket_if_socket_cb stRW [5] (fun _ => 5) (10 : Int)
        { event_type := SOCKET_DATA, socket_id := 3, d_len := 10 } =
      [Event.allocBuf 10,
       Event.forward 1 1 (kmp_api_type_from_id_get [5] (5 % 256))
         { addr_type := KMP_ADDR_EUI_64_AND_IP,
           eui_64 := (List.range 8).map (fun _ => 5),
           port := common_read_16_bit 5 5,
           relay_address := (List.range 16).map (fun _ => 5) }
         SOCKET_IF_HEADER_SIZE ((10 + 65536 - SOCKET_IF_HEADER_SIZE) % 65536),
       Event.freeBuf])
    ∧ (10 < 27 → (10 + 65536 - SOCKET_IF_HEADER_SIZE) % 65536 > 65508) := by
  exact C10_relay_receive_length_wraps stRW [5] (fun _ => 5)
    { event_type := SOCKET_DATA, socket_id := 3, d_len := 10 } entryRW
    (by decide) (by decide) (by decide) (by decide)

/-- C1: evaluation at the failing input.  A binding is registered
successfully (socket handle 3), then re-registered with a changed remote
address while `socket_open` fails.  The second call returns -1 but the
pre-existing binding (token 0) is both still linked in the registry and
recorded as freed, and the registry's only entry has a negative
(socket-less) handle: the registry holds a freed, unreachable entry,
which the claim says must never happen. -/
theorem C1_register_failure_corrupts_registry :
    (kmp_socket_if_register SifState.init envRegOK 1 0 false 10
      (some regAddr0) 20).ret = 0 ∧
    ((kmp_socket_if_register
        (kmp_socket_if_register SifState.init envRegOK 1 0 false 10
          (some regAddr0) 20).state
        { alloc_ok := true, open_result := -1, msg_if_result := 0 } 1 1 false
        10 (some (List.replicate 16 9)) 20).ret = -1 ∧
     (kmp_socket_if_register
        (kmp_socket_if_register SifState.init envRegOK 1 0 false 10
          (some regAddr0) 20).state
        { alloc_ok := true, open_result := -1, msg_if_result := 0 } 1 1 false
        10 (some (List.replicate 16 9)) 20).state.sif_list.map
        (fun e => e.tok) = [0] ∧
     (kmp_socket_if_register
        (kmp_socket_if_register SifState.init envRegOK 1 0 false 10
          (some regAddr0) 20).state
        { alloc_ok := true, open_result := -1, msg_if_result := 0 } 1 1 false
        10 (some (List.replicate 16 9)) 20).state.freed = [0] ∧
     (∀ e ∈ (kmp_socket_if_register
        (kmp_socket_if_register SifState.init envRegOK 1 0 false 10
          (some regAddr0) 20).state
        { alloc_ok := true, open_result := -1, msg_if_result := 0 } 1 1 false
        10 (some (List.replicate 16 9)) 20).state.sif_list,
        e.socket_id < 0)) := by
  decide

/-- C6 counterexample: a successful re-registration with a changed remote
address performs the close/open pair, but `socket_open` hands back the
same handle value (3) that was just closed — the binding's socket handle
after the call IS the pre-change handle, refuting "the socket handle
after the call is never the pre-change handle". -/
theorem C6_counterexample :
    (kmp_socket_if_register SifState.init envRegOK 1 0 false 10
      (some regAddr0) 20).state.sif_list.map (fun e => e.socket_id) = [3] ∧
    (kmp_socket_if_register
      (kmp_socket_if_register SifState.init envRegOK 1 0 false 10
        (some regAddr0) 20).state
      envRegOK 1 1 false 10 (some (List.replicate 16 9)) 20).ret = 0 ∧
    (kmp_socket_if_register
      (kmp_socket_if_register SifState.init envRegOK 1 0 false 10
        (some regAddr0) 20).state
      envRegOK 1 1 false 10 (some (List.replicate 16 9)) 20).events.count
      (Event.closeSock 3) = 1 ∧
    (kmp_socket_if_register
      (kmp_socket_if_register SifState.init envRegOK 1 0 false 10
        (some regAddr0) 20).state
      envRegOK 1 1 false 10 (some (List.replicate 16 9)) 20).state.sif_list.map
      (fun e => e.socket_id) = [3] := by
  decide

/-- C6 (amended): for every successful register call on an existing
binding (a binding with an open socket found under a nonzero id), if the
supplied remote address or port differs from the stored endpoint then
exactly one socket close is performed followed by exactly one socket open
and the binding's socket handle afterwards is exactly the handle returned
by the new `socket_open` (which the transport may coincidentally reuse);
if the endpoint is unchanged, no close and no open occurs. -/
theorem C6_endpoint_change_socket_lifecycle (st : SifState) (env : RegisterEnv)
    (service iid lp rp : Nat) (relay : Bool) (raddr : List Nat)
    (b : KmpSocketIfEntry)
    (hs : service ≠ 0) (hiid : iid ≠ 0)
    (hfind : findRegisterEntry st.sif_list service iid = some b)
    (hsock : 0 ≤ b.socket_id)
    (ho : 0 ≤ env.open_result) (hm : 0 ≤ env.msg_if_result) :
    ((b.remote_addr.address ≠ raddr.take 16 ∨ b.remote_addr.identifier ≠ rp) →
      (kmp_socket_if_register st env service iid relay lp (some raddr) rp).ret
        = 0 ∧
      (kmp_socket_if_register st env service iid relay lp (some raddr)
        rp).events =
        [Event.closeSock b.socket_id, Event.openSock lp env.open_result,
         Event.msgIfRegister service iid true
           (if relay then SOCKET_IF_HEADER_SIZE else 0)] ∧
      (∀ e ∈ (kmp_socket_if_register st env service iid relay lp (some raddr)
          rp).state.sif_list, e.tok = b.tok →
          e.socket_id = env.open_result))
    ∧ ((b.remote_addr.address = raddr.take 16 ∧ b.remote_addr.identifier = rp) →
      (kmp_socket_if_register st env service iid relay lp (some raddr) rp).ret
        = 0 ∧
      (kmp_socket_if_register st env service iid relay lp (some raddr)
        rp).events =
        [Event.msgIfRegister service iid true
          (if relay then SOCKET_IF_HEADER_SIZE else 0)]) := by
  have hnlt : ¬ env.open_result < 0 := not_lt.2 ho
  have hnm : ¬ env.msg_if_result < 0 := not_lt.2 hm
  have hnsk : ¬ b.socket_id < 0 := not_lt.2 hsock
  constructor
  · intro hch
    rcases hch with hch | hch
    · refine ⟨?_, ?_, ?_⟩
      · simp [kmp_socket_if_register, hfind, hs, hiid, hnlt, hnm, hnsk, hch]
      · simp [kmp_socket_if_register, hfind, hs, hiid, hnlt, hnm, hnsk, hsock,
          hch]
      · simp only [kmp_socket_if_register, hfind, hs, hiid]
        simp [hnlt, hnm, hnsk, hch, writeBack, List.mem_map]
        intro e hmem hx
        by_cases hxt : e.tok = b.tok
        · simp [hxt]
        · simp [hxt] at hx
    · refine ⟨?_, ?_, ?_⟩
      · simp [kmp_socket_if_register, hfind, hs, hiid, hnlt, hnm, hnsk, hch]
      · simp [kmp_socket_if_register, hfind, hs, hiid, hnlt, hnm, hnsk, hsock,
          hch]
      · simp only [kmp_socket_if_register, hfind, hs, hiid]
        simp [hnlt, hnm, hnsk, hch, writeBack, List.mem_map]
        intro e hmem hx
        by_cases hxt : e.tok = b.tok
        · simp [hxt]
        · simp [hxt] at hx
  · rintro ⟨hch1, hch2⟩
    constructor
    · simp [kmp_socket_if_register, hfind, hs, hiid, hnlt, hnm, hnsk, hch1,
        hch2]
    · simp [kmp_socket_if_register, hfind, hs, hiid, hnlt, hnm, hnsk, hch1,
        hch2]

theorem C6_endpoint_change_socket_lifecycle_witness :
    (kmp_socket_if_register stW envRegOK 1 1 false 10
      (some (List.replicate 16 9)) 20).ret = 0 ∧
    (kmp_socket_if_register stW envRegOK 1 1 false 10
      (some (List.replicate 16 9)) 20).events =
      [Event.closeSock entryW.socket_id, Event.openSock 10 envRegOK.open_result,
       Event.msgIfRegister 1 1 true
         (if false then SOCKET_IF_HEADER_SIZE else 0)] ∧
    (∀ e ∈ (kmp_socket_if_register stW envRegOK 1 1 false 10
        (some (List.replicate 16 9)) 20).state.sif_list,
      e.tok = entryW.tok → e.socket_id = envRegOK.open_result) :=
  (C6_endpoint_change_socket_lifecycle stW envRegOK 1 1 10 20 false
    (List.replicate 16 9) entryW (by decide) (by decide) (by decide)
    (by decide) (by decide) (by decide)).1 (by decide)

/-- Helper: a successful first registration from the initial state (id 0
requested) appends exactly one binding with allocated id 1 and socket
handle `env.open_result`, and advances the counter to 2. -/
theorem register_init_new (env : RegisterEnv) (service lp rp : Nat)
    (raddr : List Nat) (relay : Bool)
    (hs : service ≠ 0) (ha : env.alloc_ok = true)
    (ho : 0 ≤ env.open_result) (hm : 0 ≤ env.msg_if_result) :
    kmp_socket_if_register SifState.init env service 0 relay lp (some raddr)
      rp =
    { ret := 0, iid_out := 1,
      state :=
        { sif_list :=
            [{ tok := 0, kmp_service := service, instance_id := 1,
               relay := relay,
               remote_addr :=
                 { addr_type := ADDRESS_IPV6, address := raddr.take 16,
                   identifier := rp },
               socket_id := env.open_result, socket_id_set := false }],
          next_instance_id := 2, next_tok := 1, freed := [] },
      events := [Event.openSock lp env.open_result,
        Event.msgIfRegister service 1 true
          (if relay then SOCKET_IF_HEADER_SIZE else 0)] } := by
  have hnlt : ¬ env.open_result < 0 := not_lt.2 ho
  have hnm : ¬ env.msg_if_result < 0 := not_lt.2 hm
  simp [kmp_socket_if_register, SifState.init, findRegisterEntry, hs, ha,
    hnlt, hnm]

/-- C4: end-to-end relay send is byte-exact.  After registering a relay
binding for remote endpoint (A, P), sending the payload [0xAA, 0xBB]
(behind the 27 reserved leading bytes) with relay fields (relayAddr = R,
relayPort = Q, peerId = E, tag = 5) transmits exactly the wire bytes
R (16) || Q (2, big-endian) || E (8) || 0x05 || 0xAA || 0xBB to
destination (A, P), the header having been written in place over the
reserved leading space, and then releases the buffer. -/
theorem C4_relay_send_wire_exact (A R E reserved : List Nat)
    (P Q lp tx : Nat) (s m sr : Int) (atp : Nat)
    (hA : A.length = 16) (hR : R.length = 16) (hE : E.length = 8)
    (hres : reserved.length = 27) (hQ : Q < 65536)
    (ho : 0 ≤ s) (hm : 0 ≤ m) :
    (kmp_socket_if_send
      (kmp_socket_if_register SifState.init
        { alloc_ok := true, open_result := s, msg_if_result := m } 1 0 true lp
        (some A) P).state
      { sendto_result := sr } 1 1 5
      (some { addr_type := atp, eui_64 := E, port := Q, relay_address := R })
      (some (reserved ++ [0xAA, 0xBB])) 29 tx).events =
      [Event.sendto s
         { addr_type := ADDRESS_IPV6, address := A, identifier := P }
         (R ++ [Q / 256, Q % 256] ++ E ++ [5, 0xAA, 0xBB]) 29,
       Event.freeBuf] := by
  rw [register_init_new _ 1 lp P A true (by decide) rfl ho hm]
  have hAt : A.take 16 = A := by rw [← hA]; exact List.take_length A
  have hRt : R.take 16 = R := by rw [← hR]; exact List.take_length R
  have hEt : E.take 8 = E := by rw [← hE]; exact List.take_length E
  have hdrop : (reserved ++ [0xAA, 0xBB]).drop 27 = [0xAA, 0xBB] :=
    List.drop_left' hres
  have hQd : Q / 256 % 256 = Q / 256 := Nat.mod_eq_of_lt (by omega)
  simp [kmp_socket_if_send, findSendEntry, common_write_16_bit,
    kmp_address_eui_64_get, SOCKET_IF_HEADER_SIZE, hAt, hRt, hEt, hdrop, hQd]

theorem C4_relay_send_wire_exact_witness :
    (kmp_socket_if_send
      (kmp_socket_if_register SifState.init
        { alloc_ok := true, open_result := 3, msg_if_result := 0 } 1 0 true 10
        (some (List.replicate 16 1)) 20).state
      { sendto_result := -1 } 1 1 5
      (some { addr_type := 0, eui_64 := List.replicate 8 2, port := 4660,
              relay_address := List.replicate 16 4 })
      (some (List.replicate 27 0 ++ [0xAA, 0xBB])) 29 0).events =
      [Event.sendto 3
         { addr_type := ADDRESS_IPV6, address := List.replicate 16 1,
           identifier := 20 }
         (List.replicate 16 4 ++ [18, 52] ++ List.replicate 8 2 ++
           [5, 0xAA, 0xBB]) 29,
       Event.freeBuf] :=
  C4_relay_send_wire_exact (List.replicate 16 1) (List.replicate 16 4)
    (List.replicate 8 2) (List.replicate 27 0) 20 4660 10 0 3 0 (-1) 0
    (by decide) (by decide) (by decide) (by decide) (by decide) (by decide)
    (by decide)

/-- Helper: reading indices 0..n-1 of `l ++ tail` through `getD` yields
`l` when `l` has length `n`. -/
theorem getD_range_map (l tail : List Nat) (n : Nat) (h : l.length = n) :
    (List.range n).map (fun i => (l ++ tail).getD i 0) = l := by
  subst h
  induction l with
  | nil => simp
  | cons a l ih =>
    rw [List.length_cons, List.range_succ_eq_map, List.map_cons, List.map_map]
    simp only [List.cons_append, List.getD_cons_zero, Function.comp_def,
      Nat.succ_eq_add_one, List.getD_cons_succ]
    rw [ih]

/-- C5: relay header round-trip law.  For every 16-byte relay address R,
port Q < 2^16, 8-byte peer identifier E and registered nonzero tag under
256, encoding the header as the send path does (producing the wire bytes
R || Q-big-endian || E || tag || payload) and then decoding those bytes
as the receive path does reproduces R, Q, E and the tag exactly in the
forwarded message. -/
theorem C5_relay_header_round_trip (R E rest tags : List Nat)
    (Q tag lp P : Nat) (A : List Nat) (s m : Int) (sr : Int) (sz tx : Nat)
    (hR : R.length = 16) (hE : E.length = 8) (hQ : Q < 65536)
    (htag : tag < 256) (htag0 : tag ≠ 0) (htin : tag ∈ tags)
    (hrest : rest.length < 65536)
    (ho : 0 ≤ s) (hm : 0 ≤ m) (hres27 : (List.replicate 27 0).length = 27) :
    ((kmp_socket_if_send
        (kmp_socket_if_register SifState.init
          { alloc_ok := true, open_result := s, msg_if_result := m } 1 0 true
          lp (some A) P).state
        { sendto_result := sr } 1 1 tag
        (some { addr_type := 0, eui_64 := E, port := Q, relay_address := R })
        (some (List.replicate 27 0 ++ rest)) sz tx).events =
      [Event.sendto s
         { addr_type := ADDRESS_IPV6, address := A.take 16, identifier := P }
         (R ++ [Q / 256, Q % 256] ++ E ++ [tag] ++ rest) sz,
       Event.freeBuf])
    ∧ (kmp_socket_if_socket_cb
        (kmp_socket_if_register SifState.init
          { alloc_ok := true, open_result := s, msg_if_result := m } 1 0 true
          lp (some A) P).state
        tags
        (fun i => (R ++ [Q / 256, Q % 256] ++ E ++ [tag] ++ rest).getD i 0)
        ((27 + rest.length : Nat) : Int)
        { event_type := SOCKET_DATA, socket_id := s,
          d_len := 27 + rest.length } =
      [Event.allocBuf (27 + rest.length),
       Event.forward 1 1 tag
         { addr_type := KMP_ADDR_EUI_64_AND_IP, eui_64 := E, port := Q,
           relay_address := R }
         SOCKET_IF_HEADER_SIZE rest.length,
       Event.freeBuf]) := by
  have hRt : R.take 16 = R := by rw [← hR]; exact List.take_length R
  have hEt : E.take 8 = E := by rw [← hE]; exact List.take_length E
  have hQd : Q / 256 % 256 = Q / 256 := Nat.mod_eq_of_lt (by omega)
  have htm : tag % 256 = tag := Nat.mod_eq_of_lt htag
  have hdrop : (List.replicate 27 0 ++ rest).drop 27 = rest :=
    List.drop_left' hres27
  rw [register_init_new _ 1 lp P A true (by decide) rfl ho hm]
  set w : List Nat := R ++ [Q / 256, Q % 256] ++ E ++ [tag] ++ rest with hwdef
  have hw2 : w = (R ++ [Q / 256, Q % 256]) ++ (E ++ ([tag] ++ rest)) := by
    simp [hwdef, List.append_assoc]
  have hw3 : w = ((R ++ [Q / 256, Q % 256]) ++ E) ++ ([tag] ++ rest) := by
    simp [hwdef, List.append_assoc]
  have haddr : (List.range 16).map (fun i => w.getD i 0) = R := by
    rw [hwdef]
    simp only [List.append_assoc]
    exact getD_range_map R _ 16 hR
  have hhi : w.getD 16 0 = Q / 256 := by
    rw [hwdef]
    simp only [List.append_assoc]
    rw [List.getD_append_right _ _ _ _ hR.le]
    simp [hR]
  have hlo : w.getD 17 0 = Q % 256 := by
    rw [hwdef]
    simp only [List.append_assoc]
    rw [List.getD_append_right _ _ _ _ (by omega : R.length ≤ 17)]
    simp [hR]
  have heui1 : ∀ i, w.getD (18 + i) 0 = (E ++ ([tag] ++ rest)).getD i 0 := by
    intro i
    rw [hw2, List.getD_append_right _ _ _ _ (by simp [hR] : (R ++ [Q / 256, Q % 256]).length ≤ 18 + i)]
    congr 1
    simp [hR]
  have heui : (List.range 8).map (fun i => w.getD (18 + i) 0) = E := by
    simp only [heui1]
    exact getD_range_map E _ 8 hE
  have htagb : w.getD 26 0 = tag := by
    rw [hw3, List.getD_append_right _ _ _ _ (by simp [hR, hE] : ((R ++ [Q / 256, Q % 256]) ++ E).length ≤ 26)]
    simp [hR, hE]
  have hport : common_read_16_bit (Q / 256) (Q % 256) = Q := by
    unfold common_read_16_bit
    omega
  have hmt : kmp_api_type_from_id_get tags (w.getD 26 0 % 256) = tag := by
    rw [htagb, htm]
    simp [kmp_api_type_from_id_get, KMP_TYPE_NONE, htag0, htin]
  have hlen : (27 + rest.length + 65536 - SOCKET_IF_HEADER_SIZE) % 65536
      = rest.length := by
    unfold SOCKET_IF_HEADER_SIZE
    omega
  constructor
  · simp [kmp_socket_if_send, findSendEntry, common_write_16_bit,
      kmp_address_eui_64_get, SOCKET_IF_HEADER_SIZE, hRt, hEt, hQd, htm,
      hdrop, hwdef]
  · simp only [kmp_socket_if_socket_cb]
    simp only [List.find?]
    simp [hmt, KMP_TYPE_NONE, htag0, hlen, haddr, hhi, hlo, heui, hport,
      kmp_api_type_from_id_get, htm, htin,
      -List.getD_eq_getElem?_getD]
    rw [htagb, htm]
    simp [htag0, htin]

theorem C5_relay_header_round_trip_witness :
    ((kmp_socket_if_send
        (kmp_socket_if_register SifState.init
          { alloc_ok := true, open_result := 3, msg_if_result := 0 } 1 0 true
          10 (some (List.replicate 16 1)) 20).state
        { sendto_result := 0 } 1 1 5
        (some { addr_type := 0, eui_64 := List.replicate 8 2, port := 4660,
                relay_address := List.replicate 16 4 })
        (some (List.replicate 27 0 ++ [0xAA])) 30 0).events =
      [Event.sendto 3
         { addr_type := ADDRESS_IPV6,
           address := (List.replicate 16 1).take 16, identifier := 20 }
         (List.replicate 16 4 ++ [18, 52] ++ List.replicate 8 2 ++ [5] ++
           [0xAA]) 30,
       Event.freeBuf])
    ∧ (kmp_socket_if_socket_cb
        (kmp_socket_if_register SifState.init
          { alloc_ok := true, open_result := 3, msg_if_result := 0 } 1 0 true
          10 (some (List.replicate 16 1)) 20).state
        [5]
        (fun i => (List.replicate 16 4 ++ [18, 52] ++ List.replicate 8 2 ++
          [5] ++ [0xAA]).getD i 0)
        (28 : Int)
        { event_type := SOCKET_DATA, socket_id := 3, d_len := 28 } =
      [Event.allocBuf 28,
       Event.forward 1 1 5
         { addr_type := KMP_ADDR_EUI_64_AND_IP,
           eui_64 := List.replicate 8 2, port := 4660,
           relay_address := List.replicate 16 4 }
         SOCKET_IF_HEADER_SIZE 1,
       Event.freeBuf]) :=
  C5_relay_header_round_trip (List.replicate 16 4) (List.replicate 8 2)
    [0xAA] [5] 4660 5 10 20 (List.replicate 16 1) 3 0 0 30 0
    (by decide) (by decide) (by decide) (by decide) (by decide) (by decide)
    (by decide) (by decide) (by decide) (by decide)

/-- Helper: the register-lookup loop misses when no entry matches. -/
theorem findRegisterEntry_eq_none (l : List KmpSocketIfEntry) (s iid : Nat)
    (h : ∀ e ∈ l, ¬(e.kmp_service = s ∧ e.instance_id = iid)) :
    findRegisterEntry l s iid = none := by
  unfold findRegisterEntry
  induction l with
  | nil => rfl
  | cons a l ih =>
    simp only [List.foldl_cons]
    rw [if_neg (h a (List.mem_cons_self a l))]
    exact ih (fun e he => h e (List.mem_cons_of_mem a he))

/-- Helper: one allocating registration (id 0 requested, all collaborators
succeeding) on a registry with no (1, 0) entry returns 0, writes back the
current counter value (mod 256), advances the counter by one (mod 256) and
appends exactly one binding carrying that id. -/
theorem register_alloc_step (st : SifState)
    (hmiss : ∀ e ∈ st.sif_list, ¬(e.kmp_service = 1 ∧ e.instance_id = 0))
    (hc : st.next_instance_id % 256 ≠ 0) :
    (kmp_socket_if_register st envRegOK 1 0 false 10 (some regAddr0)
      20).ret = 0 ∧
    (kmp_socket_if_register st envRegOK 1 0 false 10 (some regAddr0)
      20).iid_out = st.next_instance_id % 256 ∧
    (kmp_socket_if_register st envRegOK 1 0 false 10 (some regAddr0)
      20).state.next_instance_id = (st.next_instance_id + 1) % 256 ∧
    (kmp_socket_if_register st envRegOK 1 0 false 10 (some regAddr0)
      20).state.sif_list = st.sif_list ++
      [{ tok := st.next_tok, kmp_service := 1,
         instance_id := st.next_instance_id % 256, relay := false,
         remote_addr :=
           { addr_type := ADDRESS_IPV6, address := regAddr0.take 16,
             identifier := 20 },
         socket_id := 3, socket_id_set := false }] := by
  have hfind : findRegisterEntry st.sif_list 1 0 = none :=
    findRegisterEntry_eq_none st.sif_list 1 0 hmiss
  refine ⟨?_, ?_, ?_, ?_⟩ <;>
    simp [kmp_socket_if_register, hfind, envRegOK, hc]

/-- Helper: after `n ≤ 255` allocating registrations from the initial
state, the ids written back are exactly 1..n, the registry's ids are
exactly 1..n, and the counter stands at n+1 (until the wrap at 255). -/
theorem registerN_spec (n : Nat) (hn : n ≤ 255) :
    (registerN n).2 = List.range' 1 n ∧
    (registerN n).1.sif_list.map (fun e => e.instance_id) =
      List.range' 1 n ∧
    ((registerN n).1.next_instance_id = n + 1 ∨ n = 255) := by
  induction n with
  | zero => simp [registerN, SifState.init]
  | succ n ih =>
    have hn' : n ≤ 255 := by omega
    obtain ⟨hids, hlist, hcnt⟩ := ih hn'
    have hcnt' : (registerN n).1.next_instance_id = n + 1 := by
      rcases hcnt with h | h
      · exact h
      · omega
    have hmiss : ∀ e ∈ (registerN n).1.sif_list,
        ¬(e.kmp_service = 1 ∧ e.instance_id = 0) := by
      intro e he hcontra
      have hmem : e.instance_id ∈
          (registerN n).1.sif_list.map (fun e => e.instance_id) :=
        List.mem_map_of_mem _ he
      rw [hlist, hcontra.2] at hmem
      rcases List.mem_range'.1 hmem with ⟨i, hi, heq⟩
      omega
    have hc : (registerN n).1.next_instance_id % 256 ≠ 0 := by
      rw [hcnt']
      omega
    obtain ⟨hret, hiid, hcnt2, hlist2⟩ :=
      register_alloc_step (registerN n).1 hmiss hc
    have hmod : (registerN n).1.next_instance_id % 256 = n + 1 := by
      rw [hcnt']
      omega
    have hstep : registerN (n + 1) =
        ((kmp_socket_if_register (registerN n).1 envRegOK 1 0 false 10
          (some regAddr0) 20).state,
         (registerN n).2 ++ [(kmp_socket_if_register (registerN n).1 envRegOK
          1 0 false 10 (some regAddr0) 20).iid_out]) := rfl
    refine ⟨?_, ?_, ?_⟩
    · rw [hstep]
      simp only [hiid, hmod, hids]
      rw [List.range'_concat]
      simp [Nat.add_comm]
    · rw [hstep]
      simp only [hlist2, List.map_append, hlist, List.map_cons, List.map_nil,
        hmod]
      rw [List.range'_concat]
      simp [Nat.add_comm]
    · rw [hstep]
      by_cases h255 : n + 1 = 255
      · right
        exact h255
      · left
        rw [hcnt2, hcnt']
        omega

/-- Helper: a register call requesting instance id 0 either fails or
writes back a nonzero id (the allocator's skip-zero adjustment). -/
theorem register_iid_nonzero_or_err (st : SifState) (env : RegisterEnv)
    (service : Nat) (relay : Bool) (lp rp : Nat) (ra : List Nat) :
    (kmp_socket_if_register st env service 0 relay lp (some ra) rp).ret = -1 ∨
    (kmp_socket_if_register st env service 0 relay lp (some ra) rp).iid_out
      ≠ 0 := by
  unfold kmp_socket_if_register
  by_cases hs : service = 0
  · simp [hs]
  · simp only [if_neg hs]
    split
    · left
      rfl
    · right
      simp only [apply_ite RegisterResult.iid_out, ite_self]
      split
      · dsimp only
        split <;> omega
      · rename_i hF
        exact absurd trivial hF

/-- C2 (amended): every successful register call with *instance_id == 0 on
entry writes back a nonzero id, and across N ≤ 255 such registrations from
the initial counter all assigned ids are distinct (the ids 1..N) and
nonzero.  (The uint8 counter wraps after 255 allocations, and a binding
created from a caller-supplied nonzero unmatched id is stored with
instance_id 0 — see the counterexample.) -/
theorem C2_instance_id_allocation :
    (∀ (st : SifState) (env : RegisterEnv) (service : Nat) (relay : Bool)
      (lp rp : Nat) (ra : List Nat),
      (kmp_socket_if_register st env service 0 relay lp (some ra) rp).ret = 0 →
      (kmp_socket_if_register st env service 0 relay lp (some ra) rp).iid_out
        ≠ 0)
    ∧ (∀ n, n ≤ 255 →
        (registerN n).2 = List.range' 1 n ∧ (registerN n).2.Nodup ∧
        ∀ i ∈ (registerN n).2, i ≠ 0) := by
  constructor
  · intro st env service relay lp rp ra h
    rcases register_iid_nonzero_or_err st env service relay lp rp ra with
      he | hn
    · rw [he] at h
      exact absurd h (by decide)
    · exact hn
  · intro n hn
    obtain ⟨hids, _, _⟩ := registerN_spec n hn
    refine ⟨hids, ?_, ?_⟩
    · rw [hids]
      exact List.nodup_range' 1 n
    · intro i hi
      rw [hids] at hi
      rcases List.mem_range'.1 hi with ⟨j, hj, heq⟩
      omega

theorem C2_instance_id_allocation_witness :
    ((kmp_socket_if_register SifState.init envRegOK 1 0 false 10
      (some regAddr0) 20).ret = 0 ∧
     (kmp_socket_if_register SifState.init envRegOK 1 0 false 10
      (some regAddr0) 20).iid_out ≠ 0)
    ∧ (3 ≤ 255 ∧ (registerN 3).2 = List.range' 1 3) :=
  ⟨⟨by decide,
    C2_instance_id_allocation.1 SifState.init envRegOK 1 false 10 20 regAddr0
      (by decide)⟩,
   by decide, (C2_instance_id_allocation.2 3 (by decide)).1⟩

/-- C2 counterexample: a successful register call that supplies nonzero
instance id 5 into an empty registry creates a binding, but the binding
held in the registry has instance_id 0, not 5 (the code never stores the
caller-supplied id into the new node) — refuting "every binding held in
the registry has a nonzero instance_id (including a binding created
because a caller-supplied nonzero id matched no existing entry)". -/
theorem C2_counterexample :
    (kmp_socket_if_register SifState.init envRegOK 1 5 false 10
      (some regAddr0) 20).ret = 0 ∧
    (kmp_socket_if_register SifState.init envRegOK 1 5 false 10
      (some regAddr0) 20).state.sif_list.map (fun e => e.instance_id)
      = [0] := by
  decide

/-- Helper: a successful re-registration of the pair (1, 1) on a
singleton registry mutates the listed binding in place (same heap token)
and inserts nothing. -/
theorem register_single_reRegister (st : SifState) (b : KmpSocketIfEntry)
    (ra : List Nat) (rp : Nat)
    (hl : st.sif_list = [b]) (hsvc : b.kmp_service = 1)
    (hid : b.instance_id = 1) (hsk : b.socket_id = 3) :
    (kmp_socket_if_register st envRegOK 1 1 false 10 (some ra)
      rp).state.sif_list =
      [{ b with
          kmp_service := 1,
          relay := false,
          remote_addr :=
            { addr_type := ADDRESS_IPV6, address := ra.take 16,
              identifier := rp },
          socket_id := 3 }] := by
  have hfind : findRegisterEntry [b] 1 1 = some b := by
    simp [findRegisterEntry, hsvc, hid]
  by_cases hch1 : b.remote_addr.address = ra.take 16
  · by_cases hch2 : b.remote_addr.identifier = rp
    · simp [kmp_socket_if_register, hfind, envRegOK, hch1, hch2, hl,
        writeBack, hsk]
    · simp [kmp_socket_if_register, hfind, envRegOK, hch1, hch2, hl,
        writeBack, hsk]
  · simp [kmp_socket_if_register, hfind, envRegOK, hch1, hl, writeBack, hsk]

/-- Helper: after the allocating first registration and `n`
re-registrations of the pair (1, 1) under arbitrary per-call endpoints,
the registry is still the single original allocation. -/
theorem reRegisterN_single (ep : Nat → List Nat) (pp : Nat → Nat) (n : Nat) :
    ∃ b : KmpSocketIfEntry, (reRegisterN ep pp n).sif_list = [b] ∧
      b.tok = 0 ∧ b.kmp_service = 1 ∧ b.instance_id = 1 ∧ b.socket_id = 3 := by
  induction n with
  | zero =>
    rw [show reRegisterN ep pp 0 =
      (kmp_socket_if_register SifState.init envRegOK 1 0 false 10
        (some (ep 0)) (pp 0)).state from rfl]
    rw [register_init_new envRegOK 1 10 (pp 0) (ep 0) false (by decide) rfl
      (by decide) (by decide)]
    exact ⟨_, rfl, rfl, rfl, rfl, rfl⟩
  | succ n ih =>
    obtain ⟨b, hl, ht, hsvc, hid, hsk⟩ := ih
    rw [show reRegisterN ep pp (n + 1) =
      (kmp_socket_if_register (reRegisterN ep pp n) envRegOK 1 1 false 10
        (some (ep (n + 1))) (pp (n + 1))).state from rfl]
    rw [register_single_reRegister _ b _ _ hl hsvc hid hsk]
    exact ⟨_, rfl, ht, rfl, hid, rfl⟩

/-- C3 (amended): for every sequence of successful register calls for the
same (service, instance_id) pair in which the id was written back by the
first (allocating) call, the registry contains exactly one binding for
the pair — the one inserted by the first call (heap token 0) — and every
subsequent call mutates it in place without duplicating it, whatever
remote endpoint each call supplies. -/
theorem C3_same_pair_single_binding (ep : Nat → List Nat) (pp : Nat → Nat)
    (n : Nat) :
    (reRegisterN ep pp n).sif_list.map
      (fun e => (e.tok, e.kmp_service, e.instance_id)) = [(0, 1, 1)] := by
  obtain ⟨b, hl, ht, hsvc, hid, hsk⟩ := reRegisterN_single ep pp n
  rw [hl]
  simp [ht, hsvc, hid]

/-- C3 counterexample: two successful register calls with the same
(service = 1, instance_id = 5) pair each insert a fresh binding — the
registry ends with two entries and none of them carries the pair's id
(both stored ids are 0), refuting "the registry contains exactly one
binding for that pair: a binding is inserted into the registry only
once". -/
theorem C3_counterexample :
    (kmp_socket_if_register SifState.init envRegOK 1 5 false 10
      (some regAddr0) 20).ret = 0 ∧
    (kmp_socket_if_register
      (kmp_socket_if_register SifState.init envRegOK 1 5 false 10
        (some regAddr0) 20).state envRegOK 1 5 false 10
      (some regAddr0) 20).ret = 0 ∧
    (kmp_socket_if_register
      (kmp_socket_if_register SifState.init envRegOK 1 5 false 10
        (some regAddr0) 20).state envRegOK 1 5 false 10
      (some regAddr0) 20).state.sif_list.length = 2 ∧
    (kmp_socket_if_register
      (kmp_socket_if_register SifState.init envRegOK 1 5 false 10
        (some regAddr0) 20).state envRegOK 1 5 false 10
      (some regAddr0) 20).state.sif_list.countP
      (fun e => decide (e.kmp_service = 1 ∧ e.instance_id = 5)) = 0 := by
  decide
